import Mathlib

/-!
Shallow embedding of the notifox-go client library (client.go, errors.go,
types.go of github.com/notifoxhq/notifox-go).

The HTTP transport, the JSON codec of the Go standard library and the
cancellation context are external collaborators.  One HTTP exchange with
them is modelled by `HTTPOutcome`; a whole `SendAlert` call reads one
outcome per attempt, plus a cancellation flag per backoff window, from a
`SendAlertEnv`.  HTTP status codes are `Nat`; the configured retry count is
`Int`, since Go `int` may be negative and `SendAlert` reads it signed.
-/

/-- Channel (types.go): the delivery channel for an alert, a Go string type. -/
abbrev Channel := String

/-- SMS delivery channel constant (types.go). -/
def SMS : Channel := "sms"

/-- Email delivery channel constant (types.go). -/
def Email : Channel := "email"

/-- AlertRequest (types.go): a request to send an alert. -/
structure AlertRequest where
  Audience : String
  Alert : String
  Channel : Channel

/-- AlertResponse (types.go): the response from sending an alert.  The client
never computes with these fields; they only pass through deserialization. -/
structure AlertResponse where
  MessageID : String
  Parts : Int
  Cost : Float
  Currency : String
  Encoding : String
  Characters : Int

/-- PartsResponse (types.go): the response from calculating message parts. -/
structure PartsResponse where
  Parts : Int
  Cost : Float
  Currency : String
  Encoding : String
  Characters : Int
  Message : String

/-- The typed error taxonomy of errors.go.  Each Go error struct becomes one
constructor carrying exactly the fields the code reads:
NotifoxAuthenticationError, NotifoxInsufficientBalanceError,
NotifoxRateLimitError, NotifoxAPIError, NotifoxConnectionError. -/
inductive NotifoxError where
  | authenticationError (StatusCode : Nat) (ResponseText : String)
  | insufficientBalanceError (ResponseText : String)
  | rateLimitError (ResponseText : String)
  | apiError (StatusCode : Nat) (ResponseText : String)
  | connectionError (cause : String)
deriving DecidableEq

/-- parseError (errors.go 89-114): create the appropriate error type from the
HTTP status code.  401/403 = StatusUnauthorized/StatusForbidden,
402 = StatusPaymentRequired, 429 = StatusTooManyRequests. -/
def parseError (statusCode : Nat) (responseText : String) : NotifoxError :=
  if statusCode = 401 ∨ statusCode = 403 then
    .authenticationError statusCode responseText
  else if statusCode = 402 then
    .insufficientBalanceError responseText
  else if statusCode = 429 then
    .rateLimitError responseText
  else
    .apiError statusCode responseText

/-- Client (client.go): the configuration the embedded operations read.
The timeout and the pluggable transport act only through `HTTPOutcome`, so
they are not fields the retry logic inspects. -/
structure Client where
  apiKey : String
  baseURL : String
  maxRetries : Int
  UserAgent : String

/-- One HTTP exchange as doRequest observes it: either the transport fails
before any response exists (httpClient.Do error or response-body read error,
both wrapped by the code as NotifoxConnectionError), or a response arrives
with a status code and a raw body.  The field `decoded` is the outcome of
json.Unmarshal of the body into the expected result type (`some r` on
success, `none` on a decode error); `envelope` is the outcome of
json.Unmarshal of the body into ErrorResponse (`some e` meaning success with
Error field `e`, `none` meaning a decode error).  Both fields stand for the
external JSON codec applied to the body. -/
inductive HTTPOutcome (α : Type) where
  | netError (cause : String)
  | response (status : Nat) (body : String) (decoded : Option α) (envelope : Option String)

/-- An outgoing HTTP request as doRequest builds it: method, target URL and
the header list. -/
structure HTTPRequest where
  method : String
  url : String
  headers : List (String × String)

/-- The request doRequest builds (client.go): Content-Type and User-Agent are
always set; Authorization is set unless the URL is the parts endpoint
(`baseURL + "/alert/parts"`), which does not require it. -/
def buildRequest (c : Client) (method url : String) : HTTPRequest :=
  ⟨method, url,
    [("Content-Type", "application/json"), ("User-Agent", c.UserAgent)] ++
      (if url ≠ c.baseURL ++ "/alert/parts" then
        [("Authorization", "Bearer " ++ c.apiKey)]
      else
        [])⟩

/-- doRequest (client.go): build the request, perform one exchange and decode
the response.  A transport-level failure is a NotifoxConnectionError; a 2xx
response whose body decodes is a success; a 2xx response whose body does not
decode is a NotifoxAPIError carrying the 2xx status and the raw body; a 401
response is classified from the raw body directly (the service sends plain
text there); any other non-2xx response is classified from the error
envelope field when the body parses as `ErrorResponse` with a non-empty
Error, and from the raw body otherwise. -/
def doRequest (α : Type) (c : Client) (method url : String) (outcome : HTTPOutcome α) :
    HTTPRequest × Except NotifoxError α :=
  (buildRequest c method url,
    match outcome with
    | .netError cause => .error (.connectionError cause)
    | .response status body decoded envelope =>
      if 200 ≤ status ∧ status < 300 then
        match decoded with
        | some r => .ok r
        | none => .error (.apiError status body)
      else if status = 401 then
        .error (parseError status body)
      else
        match envelope with
        | some e =>
          if e ≠ "" then .error (parseError status e) else .error (parseError status body)
        | none => .error (parseError status body))

/-- A Go `error` value as SendAlert or CalculateParts can return one: a
fmt.Errorf validation error, the cancellation context's ctx.Err(), or a
classified NotifoxError. -/
inductive GoError where
  | errorf (msg : String)
  | ctxErr (msg : String)
  | notifox (e : NotifoxError)
deriving DecidableEq

/-- The environment one SendAlert call runs against: the transport outcome of
each attempt (0-based), whether ctx.Done() fires and wins the select during
the backoff window after each attempt, and the value of ctx.Err(). -/
structure SendAlertEnv where
  outcome : Nat → HTTPOutcome AlertResponse
  cancelDuringBackoff : Nat → Bool
  ctxErrMsg : String

/-- The observable result of one SendAlert call: the returned response and
error (a Go `(*AlertResponse, error)` pair, each possibly nil), the number
of transport invocations made, and the completed backoff waits in
milliseconds, in order. -/
structure SendAlertOut where
  resp : Option AlertResponse
  err : Option GoError
  attempts : Nat
  backoffsMs : List Nat

/-- The type assertion `err.(*NotifoxAuthenticationError)` of the retry loop. -/
def isAuthErr : NotifoxError → Bool
  | .authenticationError _ _ => true
  | _ => false

/-- The type assertion `err.(*NotifoxRateLimitError)` of the retry loop. -/
def isRateLimitErr : NotifoxError → Bool
  | .rateLimitError _ => true
  | _ => false

/-- The retry loop's check for other terminal client errors: a
NotifoxAPIError with `StatusCode >= 400 && StatusCode < 500`. -/
def isClient4xxAPIErr : NotifoxError → Bool
  | .apiError s _ => 400 ≤ s && s < 500
  | _ => false

/-- An error the retry loop does not return immediately on: not an
authentication error, not a rate-limit error, not a 4xx API error. -/
def retryableErr (e : NotifoxError) : Bool :=
  !isAuthErr e && !isRateLimitErr e && !isClient4xxAPIErr e

/-- The transport result of attempt `i` of a SendAlert call (the second
component of doRequest on the alert endpoint with attempt `i`'s outcome). -/
def attemptRes (c : Client) (env : SendAlertEnv) (i : Nat) :
    Except NotifoxError AlertResponse :=
  (doRequest AlertResponse c "POST" (c.baseURL ++ "/alert") (env.outcome i)).2

/-- The retry loop of SendAlert (client.go), with `fuel` the number of loop
iterations remaining (`c.maxRetries - attempt + 1` in the Go indices, so the
Go guard `attempt <= c.maxRetries` is `fuel > 0` and the backoff guard
`attempt < c.maxRetries` is `fuel > 1`).  `attempt` is the Go loop index and
`lastErr` the current value of the loop's `err` variable.  When the loop
exits with no iteration left it returns `(nil, err)`.  Each iteration calls
doRequest; success returns at once; authentication, rate-limit and 4xx API
errors return at once; otherwise, when iterations remain, the loop waits
`(attempt+1) * 100` milliseconds — returning ctx.Err() instead if the
cancellation signal fires during the wait — and retries. -/
def sendAlertLoop (c : Client) (env : SendAlertEnv) :
    Nat → Nat → Option GoError → SendAlertOut
  | 0, _, lastErr => ⟨none, lastErr, 0, []⟩
  | fuel + 1, attempt, _ =>
    match (doRequest AlertResponse c "POST" (c.baseURL ++ "/alert") (env.outcome attempt)).2 with
    | .ok r => ⟨some r, none, 1, []⟩
    | .error e =>
      if isAuthErr e then ⟨none, some (.notifox e), 1, []⟩
      else if isRateLimitErr e then ⟨none, some (.notifox e), 1, []⟩
      else if isClient4xxAPIErr e then ⟨none, some (.notifox e), 1, []⟩
      else if fuel = 0 then
        ⟨none, some (.notifox e), 1, []⟩
      else if env.cancelDuringBackoff attempt then
        ⟨none, some (.ctxErr env.ctxErrMsg), 1, []⟩
      else
        let rest := sendAlertLoop c env fuel (attempt + 1) (some (.notifox e))
        ⟨rest.resp, rest.err, rest.attempts + 1, (attempt + 1) * 100 :: rest.backoffsMs⟩

/-- SendAlert (client.go): validate the request locally, then run the retry
loop with `maxRetries + 1` total iterations (none when maxRetries is
negative, in which case the zero-valued `err` is returned: `(nil, nil)`). -/
def SendAlert (c : Client) (env : SendAlertEnv) (req : AlertRequest) : SendAlertOut :=
  if req.Audience = "" then
    ⟨none, some (.errorf "audience cannot be empty"), 0, []⟩
  else if req.Alert = "" then
    ⟨none, some (.errorf "alert message cannot be empty"), 0, []⟩
  else if req.Channel ≠ "" ∧ req.Channel ≠ SMS ∧ req.Channel ≠ Email then
    ⟨none, some (.errorf "channel must be either \x27sms\x27 or \x27email\x27"), 0, []⟩
  else
    sendAlertLoop c env (c.maxRetries + 1).toNat 0 none

/-- The observable result of one CalculateParts call: the requests issued
(empty when validation fails), and the returned response and error. -/
structure CalculatePartsOut where
  requests : List HTTPRequest
  resp : Option PartsResponse
  err : Option GoError

/-- CalculateParts (client.go): validate the message, then perform exactly
one exchange against the parts endpoint, with no retry. -/
def CalculateParts (c : Client) (outcome : HTTPOutcome PartsResponse) (alert : String) :
    CalculatePartsOut :=
  if alert = "" then
    ⟨[], none, some (.errorf "alert message cannot be empty")⟩
  else
    let res := doRequest PartsResponse c "POST" (c.baseURL ++ "/alert/parts") outcome
    match res.2 with
    | .ok r => ⟨[res.1], some r, none⟩
    | .error e => ⟨[res.1], none, some (.notifox e)⟩

/-- A request that passes SendAlert's local validation. -/
def validAlertRequest (req : AlertRequest) : Prop :=
  req.Audience ≠ "" ∧ req.Alert ≠ "" ∧
    (req.Channel = "" ∨ req.Channel = SMS ∨ req.Channel = Email)

/-- One unfolding of the retry loop, phrased through `attemptRes`. -/
lemma sendAlertLoop_succ (c : Client) (env : SendAlertEnv) (fuel attempt : Nat)
    (le : Option GoError) :
    sendAlertLoop c env (fuel + 1) attempt le =
      match attemptRes c env attempt with
      | .ok r => ⟨some r, none, 1, []⟩
      | .error e =>
        if isAuthErr e then ⟨none, some (.notifox e), 1, []⟩
        else if isRateLimitErr e then ⟨none, some (.notifox e), 1, []⟩
        else if isClient4xxAPIErr e then ⟨none, some (.notifox e), 1, []⟩
        else if fuel = 0 then ⟨none, some (.notifox e), 1, []⟩
        else if env.cancelDuringBackoff attempt then ⟨none, some (.ctxErr env.ctxErrMsg), 1, []⟩
        else
          let rest := sendAlertLoop c env fuel (attempt + 1) (some (.notifox e))
          ⟨rest.resp, rest.err, rest.attempts + 1, (attempt + 1) * 100 :: rest.backoffsMs⟩ :=
  rfl

/-- Shifting the base of the backoff schedule by one attempt. -/
lemma backoffs_shift (a k : Nat) :
    (List.range (k + 1)).map (fun i => (a + i + 1) * 100)
      = (a + 1) * 100 :: (List.range k).map (fun i => (a + 1 + i + 1) * 100) := by
  rw [List.range_succ_eq_map, List.map_cons, List.map_map]
  have hfun : ((fun i => (a + i + 1) * 100) ∘ Nat.succ) = fun i => (a + 1 + i + 1) * 100 := by
    funext i
    simp only [Function.comp]
    omega
  rw [hfun]

/-- A retryable failure splits off one loop iteration: the next attempt runs
with one unit less fuel, and the trace grows by one attempt and one backoff. -/
lemma retryableErr_false_cases (e : NotifoxError) (h : retryableErr e = true) :
    isAuthErr e = false ∧ isRateLimitErr e = false ∧ isClient4xxAPIErr e = false := by
  simp only [retryableErr, Bool.and_eq_true, Bool.not_eq_true'] at h
  exact ⟨h.1.1, h.1.2, h.2⟩

/-- Validation passes on a valid request, so SendAlert is the retry loop from
attempt 0 with `maxRetries + 1` iterations of fuel. -/
lemma SendAlert_valid (c : Client) (env : SendAlertEnv) (req : AlertRequest)
    (h : validAlertRequest req) :
    SendAlert c env req = sendAlertLoop c env (c.maxRetries + 1).toNat 0 none := by
  obtain ⟨h1, h2, h3⟩ := h
  simp only [SendAlert, if_neg h1, if_neg h2]
  rw [if_neg]
  rintro ⟨hc1, hc2, hc3⟩
  rcases h3 with h | h | h
  · exact hc1 h
  · exact hc2 h
  · exact hc3 h

/-- If the first `k` attempts fail retryably with no cancellation during
their backoffs, and attempt `k` succeeds with `r` while fuel remains, the
loop returns the success after exactly `k + 1` attempts, having waited the
linear backoff schedule. -/
lemma sendAlertLoop_ok_at (c : Client) (env : SendAlertEnv) (E : Nat → NotifoxError)
    (r : AlertResponse) :
    ∀ (k fuel a : Nat) (le : Option GoError), k < fuel →
      (∀ i, i < k → attemptRes c env (a + i) = .error (E (a + i)) ∧
        retryableErr (E (a + i)) = true ∧ env.cancelDuringBackoff (a + i) = false) →
      attemptRes c env (a + k) = .ok r →
      sendAlertLoop c env fuel a le =
        ⟨some r, none, k + 1, (List.range k).map (fun i => (a + i + 1) * 100)⟩ := by
  intro k
  induction k with
  | zero =>
    intro fuel a le hk hpre hok
    obtain ⟨f, rfl⟩ : ∃ f, fuel = f + 1 := ⟨fuel - 1, by omega⟩
    rw [Nat.add_zero] at hok
    rw [sendAlertLoop_succ, hok]
    simp
  | succ k ih =>
    intro fuel a le hk hpre hok
    obtain ⟨f, rfl⟩ : ∃ f, fuel = f + 1 := ⟨fuel - 1, by omega⟩
    have h0 := hpre 0 (by omega)
    rw [Nat.add_zero] at h0
    obtain ⟨hA, hR, hC⟩ := retryableErr_false_cases _ h0.2.1
    have hf : f ≠ 0 := by omega
    rw [sendAlertLoop_succ, h0.1]
    simp only [hA, hR, hC, Bool.false_eq_true, if_false, hf, if_neg, h0.2.2]
    have hpre' : ∀ i, i < k → attemptRes c env (a + 1 + i) = .error (E (a + 1 + i)) ∧
        retryableErr (E (a + 1 + i)) = true ∧ env.cancelDuringBackoff (a + 1 + i) = false := by
      intro i hi
      have := hpre (i + 1) (by omega)
      rwa [show a + (i + 1) = a + 1 + i by omega] at this
    have hok' : attemptRes c env (a + 1 + k) = .ok r := by
      rwa [show a + (k + 1) = a + 1 + k by omega] at hok
    rw [ih f (a + 1) (some (.notifox (E a))) (by omega) hpre' hok']
    rw [backoffs_shift]

/-- A non-retryable (terminal) failure makes every branch of the loop's
early-return chain produce the same immediate result. -/
lemma sendAlertLoop_terminal_step (c : Client) (env : SendAlertEnv) (f a : Nat)
    (le : Option GoError) (e : NotifoxError)
    (hres : attemptRes c env a = .error e) (hterm : retryableErr e = false) :
    sendAlertLoop c env (f + 1) a le = ⟨none, some (.notifox e), 1, []⟩ := by
  rw [sendAlertLoop_succ, hres]
  by_cases hA : isAuthErr e
  · simp [hA]
  · by_cases hR : isRateLimitErr e
    · simp [hA, hR]
    · by_cases hC : isClient4xxAPIErr e
      · simp [hA, hR, hC]
      · exfalso
        simp only [Bool.not_eq_true] at hA hR hC
        rw [retryableErr, hA, hR, hC] at hterm
        simp at hterm

/-- If the first `k` attempts fail retryably with no cancellation during
their backoffs, and attempt `k` fails with a terminal (non-retryable) error
while fuel remains, the loop returns that error immediately after attempt
`k + 1`, having waited the linear backoff schedule. -/
lemma sendAlertLoop_terminal_at (c : Client) (env : SendAlertEnv) (E : Nat → NotifoxError)
    (e : NotifoxError) :
    ∀ (k fuel a : Nat) (le : Option GoError), k < fuel →
      (∀ i, i < k → attemptRes c env (a + i) = .error (E (a + i)) ∧
        retryableErr (E (a + i)) = true ∧ env.cancelDuringBackoff (a + i) = false) →
      attemptRes c env (a + k) = .error e → retryableErr e = false →
      sendAlertLoop c env fuel a le =
        ⟨none, some (.notifox e), k + 1, (List.range k).map (fun i => (a + i + 1) * 100)⟩ := by
  intro k
  induction k with
  | zero =>
    intro fuel a le hk hpre hres hterm
    obtain ⟨f, rfl⟩ : ∃ f, fuel = f + 1 := ⟨fuel - 1, by omega⟩
    rw [Nat.add_zero] at hres
    rw [sendAlertLoop_terminal_step c env f a le e hres hterm]
    simp
  | succ k ih =>
    intro fuel a le hk hpre hres hterm
    obtain ⟨f, rfl⟩ : ∃ f, fuel = f + 1 := ⟨fuel - 1, by omega⟩
    have h0 := hpre 0 (by omega)
    rw [Nat.add_zero] at h0
    obtain ⟨hA, hR, hC⟩ := retryableErr_false_cases _ h0.2.1
    have hf : f ≠ 0 := by omega
    rw [sendAlertLoop_succ, h0.1]
    simp only [hA, hR, hC, Bool.false_eq_true, if_false, hf, if_neg, h0.2.2]
    have hpre' : ∀ i, i < k → attemptRes c env (a + 1 + i) = .error (E (a + 1 + i)) ∧
        retryableErr (E (a + 1 + i)) = true ∧ env.cancelDuringBackoff (a + 1 + i) = false := by
      intro i hi
      have := hpre (i + 1) (by omega)
      rwa [show a + (i + 1) = a + 1 + i by omega] at this
    have hres' : attemptRes c env (a + 1 + k) = .error e := by
      rwa [show a + (k + 1) = a + 1 + k by omega] at hres
    rw [ih f (a + 1) (some (.notifox (E a))) (by omega) hpre' hres' hterm]
    rw [backoffs_shift]

/-- If the first `j` attempts fail retryably with no cancellation, attempt
`j` fails retryably with enough fuel left that the loop enters its backoff,
and the cancellation signal fires during that backoff, the loop returns
ctx.Err() after `j + 1` attempts, with only the earlier backoffs completed. -/
lemma sendAlertLoop_cancel_at (c : Client) (env : SendAlertEnv) (E : Nat → NotifoxError) :
    ∀ (j fuel a : Nat) (le : Option GoError), j + 1 < fuel →
      (∀ i, i < j → attemptRes c env (a + i) = .error (E (a + i)) ∧
        retryableErr (E (a + i)) = true ∧ env.cancelDuringBackoff (a + i) = false) →
      attemptRes c env (a + j) = .error (E (a + j)) →
      retryableErr (E (a + j)) = true →
      env.cancelDuringBackoff (a + j) = true →
      sendAlertLoop c env fuel a le =
        ⟨none, some (.ctxErr env.ctxErrMsg), j + 1,
          (List.range j).map (fun i => (a + i + 1) * 100)⟩ := by
  intro j
  induction j with
  | zero =>
    intro fuel a le hj hpre hres hretry hcancel
    obtain ⟨f, rfl⟩ : ∃ f, fuel = f + 1 := ⟨fuel - 1, by omega⟩
    rw [Nat.add_zero] at hres hretry hcancel
    obtain ⟨hA, hR, hC⟩ := retryableErr_false_cases _ hretry
    have hf : f ≠ 0 := by omega
    rw [sendAlertLoop_succ, hres]
    simp [hA, hR, hC, hf, hcancel]
  | succ j ih =>
    intro fuel a le hj hpre hres hretry hcancel
    obtain ⟨f, rfl⟩ : ∃ f, fuel = f + 1 := ⟨fuel - 1, by omega⟩
    have h0 := hpre 0 (by omega)
    rw [Nat.add_zero] at h0
    obtain ⟨hA, hR, hC⟩ := retryableErr_false_cases _ h0.2.1
    have hf : f ≠ 0 := by omega
    rw [sendAlertLoop_succ, h0.1]
    simp only [hA, hR, hC, Bool.false_eq_true, if_false, hf, if_neg, h0.2.2]
    have hpre' : ∀ i, i < j → attemptRes c env (a + 1 + i) = .error (E (a + 1 + i)) ∧
        retryableErr (E (a + 1 + i)) = true ∧ env.cancelDuringBackoff (a + 1 + i) = false := by
      intro i hi
      have := hpre (i + 1) (by omega)
      rwa [show a + (i + 1) = a + 1 + i by omega] at this
    have hsh : a + (j + 1) = a + 1 + j := by omega
    rw [hsh] at hres hretry hcancel
    rw [ih f (a + 1) (some (.notifox (E a))) (by omega) hpre' hres hretry hcancel]
    rw [backoffs_shift]

/-- If every attempt the fuel allows fails retryably, and the cancellation
signal never fires during the backoffs the loop performs, the loop exhausts
its budget: it makes exactly `fuel` attempts, completes `fuel - 1` backoffs,
and returns the error of the last attempt. -/
lemma sendAlertLoop_all_fail (c : Client) (env : SendAlertEnv) (E : Nat → NotifoxError) :
    ∀ (fuel a : Nat) (le : Option GoError), 0 < fuel →
      (∀ i, i < fuel → attemptRes c env (a + i) = .error (E (a + i)) ∧
        retryableErr (E (a + i)) = true) →
      (∀ i, i + 1 < fuel → env.cancelDuringBackoff (a + i) = false) →
      sendAlertLoop c env fuel a le =
        ⟨none, some (.notifox (E (a + (fuel - 1)))), fuel,
          (List.range (fuel - 1)).map (fun i => (a + i + 1) * 100)⟩ := by
  intro fuel
  induction fuel with
  | zero =>
    intro a le h0
    omega
  | succ f ih =>
    intro a le _ hfail hcancel
    have h0 := hfail 0 (by omega)
    rw [Nat.add_zero] at h0
    obtain ⟨hA, hR, hC⟩ := retryableErr_false_cases _ h0.2
    rw [sendAlertLoop_succ, h0.1]
    rcases Nat.eq_zero_or_pos f with hf | hf
    · subst hf
      simp [hA, hR, hC]
    · have hfne : f ≠ 0 := by omega
      have hcz : env.cancelDuringBackoff a = false := by
        have := hcancel 0 (by omega)
        rwa [Nat.add_zero] at this
      simp only [hA, hR, hC, Bool.false_eq_true, if_false, hfne, if_neg, hcz]
      have hfail' : ∀ i, i < f → attemptRes c env (a + 1 + i) = .error (E (a + 1 + i)) ∧
          retryableErr (E (a + 1 + i)) = true := by
        intro i hi
        have := hfail (i + 1) (by omega)
        rwa [show a + (i + 1) = a + 1 + i by omega] at this
      have hcancel' : ∀ i, i + 1 < f → env.cancelDuringBackoff (a + 1 + i) = false := by
        intro i hi
        have := hcancel (i + 1) (by omega)
        rwa [show a + (i + 1) = a + 1 + i by omega] at this
      rw [ih (a + 1) (some (.notifox (E a))) hf hfail' hcancel']
      obtain ⟨f', rfl⟩ : ∃ f', f = f' + 1 := ⟨f - 1, by omega⟩
      have hidx : a + 1 + (f' + 1 - 1) = a + (f' + 1 + 1 - 1) := by omega
      rw [hidx]
      have hlist : (f' + 1 + 1 - 1) = f' + 1 := by omega
      rw [show (f' + 1 - 1) = f' from rfl, hlist, backoffs_shift]

/-- C3: the error classifier produces exactly one variant determined by the
status code: 401 and 403 give Authentication carrying the status and the
response text, 402 gives InsufficientBalance carrying the text, 429 gives
RateLimited carrying the text, and every other status gives APIError
carrying the status and the text. -/
theorem claim_C3_parseError_classification (s : Nat) (t : String) :
    ((s = 401 ∨ s = 403) → parseError s t = .authenticationError s t) ∧
    (s = 402 → parseError s t = .insufficientBalanceError t) ∧
    (s = 429 → parseError s t = .rateLimitError t) ∧
    (s ≠ 401 → s ≠ 403 → s ≠ 402 → s ≠ 429 → parseError s t = .apiError s t) := by
  refine ⟨?_, ?_, ?_, ?_⟩
  · rintro (rfl | rfl) <;> simp [parseError]
  · rintro rfl
    simp [parseError]
  · rintro rfl
    simp [parseError]
  · intro h1 h2 h3 h4
    simp [parseError, h1, h2, h3, h4]

/-- C3 witness: the classifier at statuses 401, 402, 429 and 500. -/
theorem claim_C3_parseError_classification_witness :
    parseError 401 "Unauthorized" = .authenticationError 401 "Unauthorized" ∧
    parseError 402 "low" = .insufficientBalanceError "low" ∧
    parseError 429 "slow down" = .rateLimitError "slow down" ∧
    parseError 500 "boom" = .apiError 500 "boom" :=
  ⟨(claim_C3_parseError_classification 401 "Unauthorized").1 (Or.inl rfl),
   (claim_C3_parseError_classification 402 "low").2.1 rfl,
   (claim_C3_parseError_classification 429 "slow down").2.2.1 rfl,
   (claim_C3_parseError_classification 500 "boom").2.2.2
     (by decide) (by decide) (by decide) (by decide)⟩

/-- C4: a 2xx response whose body does not decode into the expected result
type makes doRequest return an APIError carrying that 2xx status and the raw
body, never a ConnectionFailure. -/
theorem claim_C4_2xx_decode_failure_is_apiError (α : Type) (c : Client)
    (method url : String) (s : Nat) (body : String) (envelope : Option String)
    (h2 : 200 ≤ s) (h3 : s < 300) :
    (doRequest α c method url (.response s body none envelope)).2
        = .error (.apiError s body) ∧
    ∀ cause, (doRequest α c method url (.response s body none envelope)).2
        ≠ .error (.connectionError cause) := by
  have hmain : (doRequest α c method url (.response s body none envelope)).2
      = .error (.apiError s body) := by
    simp [doRequest, h2, h3]
  refine ⟨hmain, fun cause hcon => ?_⟩
  rw [hmain] at hcon
  exact NotifoxError.noConfusion (Except.error.inj hcon)

/-- C4 witness: status 204 with an undecodable body. -/
theorem claim_C4_2xx_decode_failure_is_apiError_witness :
    200 ≤ 204 ∧ 204 < 300 ∧
    (doRequest AlertResponse ⟨"k", "b", 3, "ua"⟩ "POST" "b/alert"
        (.response 204 "not json" none none)).2 = .error (.apiError 204 "not json") :=
  ⟨by decide, by decide,
    (claim_C4_2xx_decode_failure_is_apiError AlertResponse ⟨"k", "b", 3, "ua"⟩ "POST"
      "b/alert" 204 "not json" none (by decide) (by decide)).1⟩

/-- C5: on a non-2xx response the classified error's text is resolved as:
for status 401 the raw body is used directly, ignoring the envelope; for any
other non-2xx status the envelope's error field is used when the body parses
as the error envelope with a non-empty field, and otherwise (no parse, or an
empty field) the raw body is used verbatim. -/
theorem claim_C5_response_text_resolution (α : Type) (c : Client) (method url : String) :
    (∀ (body : String) (decoded : Option α) (envelope : Option String),
      (doRequest α c method url (.response 401 body decoded envelope)).2
        = .error (.authenticationError 401 body)) ∧
    (∀ (s : Nat) (body e : String) (decoded : Option α),
      ¬(200 ≤ s ∧ s < 300) → s ≠ 401 → e ≠ "" →
      (doRequest α c method url (.response s body decoded (some e))).2
        = .error (parseError s e)) ∧
    (∀ (s : Nat) (body : String) (decoded : Option α),
      ¬(200 ≤ s ∧ s < 300) → s ≠ 401 →
      (doRequest α c method url (.response s body decoded none)).2
        = .error (parseError s body)) ∧
    (∀ (s : Nat) (body : String) (decoded : Option α),
      ¬(200 ≤ s ∧ s < 300) → s ≠ 401 →
      (doRequest α c method url (.response s body decoded (some ""))).2
        = .error (parseError s body)) := by
  refine ⟨?_, ?_, ?_, ?_⟩
  · intro body decoded envelope
    norm_num [doRequest, parseError]
  · intro s body e decoded hn h401 hne
    simp [doRequest, hn, h401, hne]
  · intro s body decoded hn h401
    simp [doRequest, hn, h401]
  · intro s body decoded hn h401
    simp [doRequest, hn, h401]

/-- C5 witness: a 401 with a well-formed envelope still uses the raw body; a
500 with envelope text uses it; a 404 with an unparseable body falls back to
the raw body. -/
theorem claim_C5_response_text_resolution_witness :
    (doRequest AlertResponse ⟨"k", "b", 3, "ua"⟩ "POST" "b/alert"
        (.response 401 "plain" none (some "enveloped"))).2
      = .error (.authenticationError 401 "plain") ∧
    (doRequest AlertResponse ⟨"k", "b", 3, "ua"⟩ "POST" "b/alert"
        (.response 500 "raw" none (some "boom"))).2 = .error (parseError 500 "boom") ∧
    (doRequest AlertResponse ⟨"k", "b", 3, "ua"⟩ "POST" "b/alert"
        (.response 404 "not found" none none)).2 = .error (parseError 404 "not found") :=
  ⟨(claim_C5_response_text_resolution AlertResponse ⟨"k", "b", 3, "ua"⟩ "POST" "b/alert").1
      "plain" none (some "enveloped"),
   (claim_C5_response_text_resolution AlertResponse ⟨"k", "b", 3, "ua"⟩ "POST" "b/alert").2.1
      500 "raw" "boom" none (by decide) (by decide) (by decide),
   (claim_C5_response_text_resolution AlertResponse ⟨"k", "b", 3, "ua"⟩ "POST"
      "b/alert").2.2.1 404 "not found" none (by decide) (by decide)⟩

/-- C6: a request with an empty audience, an empty message, or a channel
outside the closed enumeration makes SendAlert return a validation error
with the transport invoked zero times and no response. -/
theorem claim_C6_validation_before_network (c : Client) (env : SendAlertEnv)
    (req : AlertRequest)
    (h : req.Audience = "" ∨ req.Alert = "" ∨
      (req.Channel ≠ "" ∧ req.Channel ≠ SMS ∧ req.Channel ≠ Email)) :
    (SendAlert c env req).attempts = 0 ∧ (SendAlert c env req).resp = none ∧
      ∃ msg, (SendAlert c env req).err = some (.errorf msg) := by
  by_cases ha : req.Audience = ""
  · rw [SendAlert, if_pos ha]
    exact ⟨rfl, rfl, _, rfl⟩
  · by_cases hm : req.Alert = ""
    · rw [SendAlert, if_neg ha, if_pos hm]
      exact ⟨rfl, rfl, _, rfl⟩
    · have hc : req.Channel ≠ "" ∧ req.Channel ≠ SMS ∧ req.Channel ≠ Email := by
        rcases h with h | h | h
        · exact absurd h ha
        · exact absurd h hm
        · exact h
      rw [SendAlert, if_neg ha, if_neg hm, if_pos hc]
      exact ⟨rfl, rfl, _, rfl⟩

/-- C6 witness: a request with a channel outside the enumeration. -/
theorem claim_C6_validation_before_network_witness :
    (SendAlert ⟨"k", "b", 3, "ua"⟩
        ⟨fun _ => .response 200 "ok" none none, fun _ => false, "context canceled"⟩
        ⟨"oncall", "db down", "fax"⟩).attempts = 0 ∧
    (SendAlert ⟨"k", "b", 3, "ua"⟩
        ⟨fun _ => .response 200 "ok" none none, fun _ => false, "context canceled"⟩
        ⟨"oncall", "db down", "fax"⟩).resp = none ∧
    ∃ msg, (SendAlert ⟨"k", "b", 3, "ua"⟩
        ⟨fun _ => .response 200 "ok" none none, fun _ => false, "context canceled"⟩
        ⟨"oncall", "db down", "fax"⟩).err = some (.errorf msg) :=
  claim_C6_validation_before_network ⟨"k", "b", 3, "ua"⟩
    ⟨fun _ => .response 200 "ok" none none, fun _ => false, "context canceled"⟩
    ⟨"oncall", "db down", "fax"⟩ (Or.inr (Or.inr (by decide)))

/-- C10: with a negative configured maximum retry count, SendAlert on a
valid request makes zero attempts and returns a nil response together with a
nil error. -/
theorem claim_C10_negative_retries_nil_nil (c : Client) (env : SendAlertEnv)
    (req : AlertRequest) (hneg : c.maxRetries < 0) (hv : validAlertRequest req) :
    SendAlert c env req = ⟨none, none, 0, []⟩ := by
  rw [SendAlert_valid c env req hv]
  have h0 : (c.maxRetries + 1).toNat = 0 := by omega
  rw [h0]
  rfl

/-- C10 witness: maxRetries = -1 on a valid request. -/
theorem claim_C10_negative_retries_nil_nil_witness :
    (⟨"k", "b", -1, "ua"⟩ : Client).maxRetries < 0 ∧
    SendAlert ⟨"k", "b", -1, "ua"⟩
        ⟨fun _ => .response 200 "ok" none none, fun _ => false, "context canceled"⟩
        ⟨"oncall", "db down", ""⟩ = ⟨none, none, 0, []⟩ :=
  ⟨by decide,
    claim_C10_negative_retries_nil_nil ⟨"k", "b", -1, "ua"⟩
      ⟨fun _ => .response 200 "ok" none none, fun _ => false, "context canceled"⟩
      ⟨"oncall", "db down", ""⟩ (by decide) ⟨by decide, by decide, Or.inl rfl⟩⟩

/-- C8: every request doRequest builds for a URL other than the
parts-estimation endpoint carries the Authorization header with the
configured credential, and no header of the request a CalculateParts call
issues is an Authorization header. -/
theorem claim_C8_authorization_header_policy :
    (∀ (α : Type) (c : Client) (method url : String) (outcome : HTTPOutcome α),
      url ≠ c.baseURL ++ "/alert/parts" →
      ("Authorization", "Bearer " ++ c.apiKey)
        ∈ (doRequest α c method url outcome).1.headers) ∧
    (∀ (c : Client) (outcome : HTTPOutcome PartsResponse) (alert : String)
      (r : HTTPRequest), r ∈ (CalculateParts c outcome alert).requests →
      ∀ p ∈ r.headers, p.1 ≠ "Authorization") := by
  constructor
  · intro α c method url outcome hurl
    show ("Authorization", "Bearer " ++ c.apiKey) ∈ (buildRequest c method url).headers
    rw [buildRequest]
    simp [hurl]
  · intro c outcome alert r hr p hp
    have hreq : r = buildRequest c "POST" (c.baseURL ++ "/alert/parts") := by
      by_cases halert : alert = ""
      · rw [CalculateParts, if_pos halert] at hr
        simp at hr
      · rw [CalculateParts, if_neg halert] at hr
        rcases houtcome : (doRequest PartsResponse c "POST"
            (c.baseURL ++ "/alert/parts") outcome).2 with e | v
        all_goals
          simp only [houtcome] at hr
          simpa using hr
    subst hreq
    rw [buildRequest] at hp
    simp only [ne_eq, not_true_eq_false, if_false, List.append_nil, ite_not] at hp
    have hp' : p = ("Content-Type", "application/json") ∨ p = ("User-Agent", c.UserAgent) := by
      simpa using hp
    rcases hp' with rfl | rfl
    · decide
    · show ("User-Agent" : String) ≠ "Authorization"
      decide

/-- C8 witness: the alert-endpoint request carries the credential header; the
Content-Type header of the parts request a CalculateParts call issues is
not an Authorization header. -/
theorem claim_C8_authorization_header_policy_witness :
    ("Authorization", "Bearer " ++ (⟨"key1", "b", 3, "ua"⟩ : Client).apiKey)
      ∈ (doRequest AlertResponse ⟨"key1", "b", 3, "ua"⟩ "POST" "b/alert"
          (.response 200 "ok" none none)).1.headers ∧
    buildRequest ⟨"key1", "b", 3, "ua"⟩ "POST" "b/alert/parts"
      ∈ (CalculateParts ⟨"key1", "b", 3, "ua"⟩ (.response 500 "x" none none)
          "hi").requests ∧
    ("Content-Type", "application/json")
      ∈ (buildRequest ⟨"key1", "b", 3, "ua"⟩ "POST" "b/alert/parts").headers ∧
    ("Content-Type", "application/json").1 ≠ "Authorization" := by
  have hmem : buildRequest ⟨"key1", "b", 3, "ua"⟩ "POST" "b/alert/parts"
      ∈ (CalculateParts ⟨"key1", "b", 3, "ua"⟩ (.response 500 "x" none none)
          "hi").requests := List.mem_singleton.mpr rfl
  have hhdr : ("Content-Type", "application/json")
      ∈ (buildRequest ⟨"key1", "b", 3, "ua"⟩ "POST" "b/alert/parts").headers := by
    rw [buildRequest]
    simp
  exact ⟨claim_C8_authorization_header_policy.1 AlertResponse ⟨"key1", "b", 3, "ua"⟩
      "POST" "b/alert" (.response 200 "ok" none none) (by decide),
    hmem, hhdr,
    claim_C8_authorization_header_policy.2 ⟨"key1", "b", 3, "ua"⟩
      (.response 500 "x" none none) "hi" _ hmem _ hhdr⟩

/-- Rebasing the backoff schedule at attempt 0. -/
lemma backoffs_base_zero :
    (fun i : Nat => (0 + i + 1) * 100) = fun i : Nat => (i + 1) * 100 := by
  funext i
  omega

/-- C1: on a valid request, when an attempt fails with an Authentication
error, a RateLimited error, or an APIError with status in [400, 500),
SendAlert returns that error immediately after that attempt, making no
further attempts regardless of the remaining retry budget; in particular a
first-attempt terminal failure means exactly one attempt. -/
theorem claim_C1_terminal_error_returns_immediately (c : Client) (env : SendAlertEnv)
    (req : AlertRequest) (E : Nat → NotifoxError) (e : NotifoxError) (k : Nat)
    (hv : validAlertRequest req) (hk : (k : Int) ≤ c.maxRetries)
    (hpre : ∀ i, i < k → attemptRes c env i = .error (E i) ∧
      retryableErr (E i) = true ∧ env.cancelDuringBackoff i = false)
    (hres : attemptRes c env k = .error e)
    (hterm : isAuthErr e = true ∨ isRateLimitErr e = true ∨ isClient4xxAPIErr e = true) :
    SendAlert c env req =
      ⟨none, some (.notifox e), k + 1, (List.range k).map (fun i => (i + 1) * 100)⟩ := by
  have hterm' : retryableErr e = false := by
    rcases hterm with h | h | h <;> simp [retryableErr, h]
  have hkf : k < (c.maxRetries + 1).toNat := by omega
  have hpre' : ∀ i, i < k → attemptRes c env (0 + i) = .error (E (0 + i)) ∧
      retryableErr (E (0 + i)) = true ∧ env.cancelDuringBackoff (0 + i) = false := by
    intro i hi
    simpa using hpre i hi
  have hres' : attemptRes c env (0 + k) = .error e := by
    simpa using hres
  rw [SendAlert_valid c env req hv,
    sendAlertLoop_terminal_at c env E e k _ 0 none hkf hpre' hres' hterm',
    backoffs_base_zero]

/-- C1 witness: a 401 response on the first attempt with max retries 3 gives
Authentication after exactly one attempt. -/
theorem claim_C1_terminal_error_returns_immediately_witness :
    attemptRes ⟨"k", "https://api.notifox.com", 3, "ua"⟩
        ⟨fun _ => .response 401 "Unauthorized" none none, fun _ => false, "context canceled"⟩
        0 = .error (.authenticationError 401 "Unauthorized") ∧
    SendAlert ⟨"k", "https://api.notifox.com", 3, "ua"⟩
        ⟨fun _ => .response 401 "Unauthorized" none none, fun _ => false, "context canceled"⟩
        ⟨"oncall", "db down", ""⟩
      = ⟨none, some (.notifox (.authenticationError 401 "Unauthorized")), 1, []⟩ := by
  refine ⟨rfl, ?_⟩
  exact claim_C1_terminal_error_returns_immediately _ _ _
    (fun _ => .connectionError "unused") (.authenticationError 401 "Unauthorized") 0
    ⟨by decide, by decide, Or.inl rfl⟩ (by decide)
    (fun i hi => absurd hi (by omega)) rfl (Or.inl rfl)

/-- C2: with maximum retries m ≥ 0, retryable failures are retried up to
m + 1 total attempts and exhaustion returns the last observed error with the
full linear backoff schedule; and when the transport fails with 500 twice
and then succeeds, SendAlert with m ≥ 2 returns the success after exactly 3
attempts. -/
theorem claim_C2_attempt_budget_and_last_error :
    (∀ (c : Client) (env : SendAlertEnv) (req : AlertRequest) (E : Nat → NotifoxError),
      validAlertRequest req → 0 ≤ c.maxRetries →
      (∀ i, i < (c.maxRetries + 1).toNat → attemptRes c env i = .error (E i) ∧
        retryableErr (E i) = true) →
      (∀ i : Nat, (i : Int) + 1 < c.maxRetries + 1 → env.cancelDuringBackoff i = false) →
      SendAlert c env req =
        ⟨none, some (.notifox (E ((c.maxRetries + 1).toNat - 1))),
          (c.maxRetries + 1).toNat,
          (List.range ((c.maxRetries + 1).toNat - 1)).map (fun i => (i + 1) * 100)⟩) ∧
    (∀ (c : Client) (env : SendAlertEnv) (req : AlertRequest) (r : AlertResponse)
        (t0 t1 : String),
      validAlertRequest req → 2 ≤ c.maxRetries →
      attemptRes c env 0 = .error (.apiError 500 t0) →
      attemptRes c env 1 = .error (.apiError 500 t1) →
      attemptRes c env 2 = .ok r →
      env.cancelDuringBackoff 0 = false → env.cancelDuringBackoff 1 = false →
      SendAlert c env req = ⟨some r, none, 3, [100, 200]⟩) := by
  constructor
  · intro c env req E hv hm hfail hcancel
    have hpos : 0 < (c.maxRetries + 1).toNat := by omega
    have hfail' : ∀ i, i < (c.maxRetries + 1).toNat →
        attemptRes c env (0 + i) = .error (E (0 + i)) ∧
          retryableErr (E (0 + i)) = true := by
      intro i hi
      simpa using hfail i hi
    have hcancel' : ∀ i, i + 1 < (c.maxRetries + 1).toNat →
        env.cancelDuringBackoff (0 + i) = false := by
      intro i hi
      have hlt : (i : Int) + 1 < c.maxRetries + 1 := by omega
      simpa using hcancel i hlt
    rw [SendAlert_valid c env req hv,
      sendAlertLoop_all_fail c env E _ 0 none hpos hfail' hcancel',
      Nat.zero_add, backoffs_base_zero]
  · intro c env req r t0 t1 hv hm h0 h1 h2 hc0 hc1
    have hkf : 2 < (c.maxRetries + 1).toNat := by omega
    have hpre : ∀ i, i < 2 →
        attemptRes c env (0 + i)
            = .error ((fun n => if n = 0 then NotifoxError.apiError 500 t0
                else NotifoxError.apiError 500 t1) (0 + i)) ∧
          retryableErr ((fun n => if n = 0 then NotifoxError.apiError 500 t0
                else NotifoxError.apiError 500 t1) (0 + i)) = true ∧
          env.cancelDuringBackoff (0 + i) = false := by
      intro i hi
      interval_cases i
      · exact ⟨by simpa using h0, rfl, by simpa using hc0⟩
      · exact ⟨by simpa using h1, rfl, by simpa using hc1⟩
    have hok : attemptRes c env (0 + 2) = .ok r := by
      simpa using h2
    rw [SendAlert_valid c env req hv,
      sendAlertLoop_ok_at c env
        (fun n => if n = 0 then NotifoxError.apiError 500 t0
          else NotifoxError.apiError 500 t1) r 2 _ 0 none hkf hpre hok]
    rfl

/-- C2 witness: exhaustion with maxRetries 3 gives four attempts and the
last error; 500, 500, then success with maxRetries 3 gives the success after
three attempts with backoffs 100 ms and 200 ms. -/
theorem claim_C2_attempt_budget_and_last_error_witness :
    SendAlert ⟨"k", "b", 3, "ua"⟩
        ⟨fun _ => .response 500 "raw" none (some "boom"), fun _ => false, "context canceled"⟩
        ⟨"oncall", "db down", ""⟩
      = ⟨none, some (.notifox (.apiError 500 "boom")), 4, [100, 200, 300]⟩ ∧
    SendAlert ⟨"k", "b", 3, "ua"⟩
        ⟨fun i => if i < 2 then .response 500 "boom" none none
            else .response 200 "ok" (some ⟨"msg-1", 1, 0.05, "EUR", "gsm7", 7⟩) none,
          fun _ => false, "context canceled"⟩
        ⟨"oncall", "db down", ""⟩
      = ⟨some ⟨"msg-1", 1, 0.05, "EUR", "gsm7", 7⟩, none, 3, [100, 200]⟩ := by
  constructor
  · exact claim_C2_attempt_budget_and_last_error.1 ⟨"k", "b", 3, "ua"⟩
      ⟨fun _ => .response 500 "raw" none (some "boom"), fun _ => false, "context canceled"⟩
      ⟨"oncall", "db down", ""⟩ (fun _ => .apiError 500 "boom")
      ⟨by decide, by decide, Or.inl rfl⟩ (by decide)
      (fun i _ => ⟨rfl, rfl⟩) (fun i _ => rfl)
  · exact claim_C2_attempt_budget_and_last_error.2 ⟨"k", "b", 3, "ua"⟩
      ⟨fun i => if i < 2 then .response 500 "boom" none none
          else .response 200 "ok" (some ⟨"msg-1", 1, 0.05, "EUR", "gsm7", 7⟩) none,
        fun _ => false, "context canceled"⟩
      ⟨"oncall", "db down", ""⟩ ⟨"msg-1", 1, 0.05, "EUR", "gsm7", 7⟩ "boom" "boom"
      ⟨by decide, by decide, Or.inl rfl⟩ (by decide) rfl rfl rfl rfl rfl

/-- C7: on a valid request whose failures are retryable, every completed
backoff before the next attempt is linear, (attempt_index + 1) * 100 ms for
the zero-based attempt just completed; and if the cancellation signal fires
during a backoff wait, SendAlert returns the cancellation error — not a
ConnectionFailure and not the last classified error. -/
theorem claim_C7_backoff_linear_and_cancellable :
    (∀ (c : Client) (env : SendAlertEnv) (req : AlertRequest) (E : Nat → NotifoxError)
        (r : AlertResponse) (k : Nat),
      validAlertRequest req → k < (c.maxRetries + 1).toNat →
      (∀ i, i < k → attemptRes c env i = .error (E i) ∧ retryableErr (E i) = true ∧
        env.cancelDuringBackoff i = false) →
      attemptRes c env k = .ok r →
      (SendAlert c env req).backoffsMs = (List.range k).map (fun i => (i + 1) * 100)) ∧
    (∀ (c : Client) (env : SendAlertEnv) (req : AlertRequest) (E : Nat → NotifoxError)
        (j : Nat),
      validAlertRequest req → (j : Int) < c.maxRetries →
      (∀ i, i < j → attemptRes c env i = .error (E i) ∧ retryableErr (E i) = true ∧
        env.cancelDuringBackoff i = false) →
      attemptRes c env j = .error (E j) → retryableErr (E j) = true →
      env.cancelDuringBackoff j = true →
      SendAlert c env req =
        ⟨none, some (.ctxErr env.ctxErrMsg), j + 1,
          (List.range j).map (fun i => (i + 1) * 100)⟩) := by
  constructor
  · intro c env req E r k hv hk hpre hok
    have hpre' : ∀ i, i < k → attemptRes c env (0 + i) = .error (E (0 + i)) ∧
        retryableErr (E (0 + i)) = true ∧ env.cancelDuringBackoff (0 + i) = false := by
      intro i hi
      simpa using hpre i hi
    have hok' : attemptRes c env (0 + k) = .ok r := by
      simpa using hok
    rw [SendAlert_valid c env req hv,
      sendAlertLoop_ok_at c env E r k _ 0 none hk hpre' hok', backoffs_base_zero]
  · intro c env req E j hv hj hpre hres hretry hcancel
    have hjf : j + 1 < (c.maxRetries + 1).toNat := by omega
    have hpre' : ∀ i, i < j → attemptRes c env (0 + i) = .error (E (0 + i)) ∧
        retryableErr (E (0 + i)) = true ∧ env.cancelDuringBackoff (0 + i) = false := by
      intro i hi
      simpa using hpre i hi
    have hres' : attemptRes c env (0 + j) = .error (E (0 + j)) := by
      simpa using hres
    have hretry' : retryableErr (E (0 + j)) = true := by
      simpa using hretry
    have hcancel' : env.cancelDuringBackoff (0 + j) = true := by
      simpa using hcancel
    rw [SendAlert_valid c env req hv,
      sendAlertLoop_cancel_at c env E j _ 0 none hjf hpre' hres' hretry' hcancel',
      backoffs_base_zero]

/-- C7 witness: one 500 then success shows the 100 ms backoff; cancellation
firing during the first backoff surfaces the context error after one
attempt. -/
theorem claim_C7_backoff_linear_and_cancellable_witness :
    (SendAlert ⟨"k", "b", 3, "ua"⟩
        ⟨fun i => if i < 2 then .response 500 "boom" none none
            else .response 200 "ok" (some ⟨"msg-1", 1, 0.05, "EUR", "gsm7", 7⟩) none,
          fun _ => false, "context canceled"⟩
        ⟨"oncall", "db down", ""⟩).backoffsMs = [100, 200] ∧
    SendAlert ⟨"k", "b", 3, "ua"⟩
        ⟨fun _ => .response 500 "boom" none none, fun _ => true, "context canceled"⟩
        ⟨"oncall", "db down", ""⟩
      = ⟨none, some (.ctxErr "context canceled"), 1, []⟩ := by
  constructor
  · exact claim_C7_backoff_linear_and_cancellable.1 ⟨"k", "b", 3, "ua"⟩
      ⟨fun i => if i < 2 then .response 500 "boom" none none
          else .response 200 "ok" (some ⟨"msg-1", 1, 0.05, "EUR", "gsm7", 7⟩) none,
        fun _ => false, "context canceled"⟩
      ⟨"oncall", "db down", ""⟩ (fun _ => .apiError 500 "boom")
      ⟨"msg-1", 1, 0.05, "EUR", "gsm7", 7⟩ 2
      ⟨by decide, by decide, Or.inl rfl⟩ (by decide)
      (fun i hi => by interval_cases i <;> exact ⟨rfl, rfl, rfl⟩) rfl
  · exact claim_C7_backoff_linear_and_cancellable.2 ⟨"k", "b", 3, "ua"⟩
      ⟨fun _ => .response 500 "boom" none none, fun _ => true, "context canceled"⟩
      ⟨"oncall", "db down", ""⟩ (fun _ => .apiError 500 "boom") 0
      ⟨by decide, by decide, Or.inl rfl⟩ (by decide)
      (fun i hi => absurd hi (by omega)) rfl rfl rfl

/-- C9: an HTTP 402 (InsufficientBalance) failure is retryable: a run whose
every attempt yields InsufficientBalance continues to the full attempt
budget of maxRetries + 1 and then returns the last InsufficientBalance
error, unlike the terminal Authentication, RateLimited and 4xx APIError
cases. -/
theorem claim_C9_insufficient_balance_retryable (c : Client) (env : SendAlertEnv)
    (req : AlertRequest) (T : Nat → String)
    (hv : validAlertRequest req) (hm : 0 ≤ c.maxRetries)
    (hfail : ∀ i, attemptRes c env i = .error (.insufficientBalanceError (T i)))
    (hcancel : ∀ i, env.cancelDuringBackoff i = false) :
    SendAlert c env req =
      ⟨none,
        some (.notifox (.insufficientBalanceError (T ((c.maxRetries + 1).toNat - 1)))),
        (c.maxRetries + 1).toNat,
        (List.range ((c.maxRetries + 1).toNat - 1)).map (fun i => (i + 1) * 100)⟩ := by
  have hpos : 0 < (c.maxRetries + 1).toNat := by omega
  have hfail' : ∀ i, i < (c.maxRetries + 1).toNat →
      attemptRes c env (0 + i)
          = .error ((fun n => NotifoxError.insufficientBalanceError (T n)) (0 + i)) ∧
        retryableErr ((fun n => NotifoxError.insufficientBalanceError (T n)) (0 + i))
          = true := by
    intro i _
    exact ⟨hfail (0 + i), rfl⟩
  have hcancel' : ∀ i, i + 1 < (c.maxRetries + 1).toNat →
      env.cancelDuringBackoff (0 + i) = false := fun i _ => hcancel (0 + i)
  rw [SendAlert_valid c env req hv,
    sendAlertLoop_all_fail c env (fun n => .insufficientBalanceError (T n)) _ 0 none
      hpos hfail' hcancel',
    Nat.zero_add, backoffs_base_zero]

/-- C9 witness: every attempt answering 402 with maxRetries 3 gives four
attempts and the InsufficientBalance error. -/
theorem claim_C9_insufficient_balance_retryable_witness :
    SendAlert ⟨"k", "b", 3, "ua"⟩
        ⟨fun _ => .response 402 "raw" none (some "balance low"), fun _ => false,
          "context canceled"⟩
        ⟨"oncall", "db down", ""⟩
      = ⟨none, some (.notifox (.insufficientBalanceError "balance low")), 4,
          [100, 200, 300]⟩ :=
  claim_C9_insufficient_balance_retryable ⟨"k", "b", 3, "ua"⟩
    ⟨fun _ => .response 402 "raw" none (some "balance low"), fun _ => false,
      "context canceled"⟩
    ⟨"oncall", "db down", ""⟩ (fun _ => "balance low")
    ⟨by decide, by decide, Or.inl rfl⟩ (by decide) (fun _ => rfl) (fun _ => rfl)
